import Mathlib

/-!
Shallow embedding of the anomaly-detection repository.

Source files modelled here:
* `feature_extraction.py` — class `FeatureExtractor` (sliding window + `extract`),
* `anomaly_detection.py` — class `AnomalyDetector` (`__init__`, `detect`),
* `main.py` — classes `DynamicFeatureExtractor` and `AdaptiveAnomalyDetector`
  (the pure z-score variant, a near-duplicate of the other two files).

Real numbers stand for Python floats; the numpy statistics (`np.mean`,
`np.std`, `np.percentile`, the degree-1 `np.polyfit` slope) are embedded as
functions on `List ℝ`; a `deque(maxlen=c)` is a `List ℝ` kept at length at
most `c` with FIFO eviction on append.
-/

noncomputable section

namespace np

/-- The statistic `np.mean(a)`: arithmetic mean of the list (numpy would give `nan` on an
empty list; the embedding returns `0/0 = 0`, which no claim relies on). -/
def mean (l : List ℝ) : ℝ := l.sum / l.length

/-- The population variance `np.var(a)`: mean of squared deviations. -/
def var (l : List ℝ) : ℝ := ((l.map fun y => (y - mean l) ^ 2).sum) / l.length

/-- The statistic `np.std(a)`: population standard deviation, the square root of `np.var`. -/
def std (l : List ℝ) : ℝ := Real.sqrt (var l)

/-- Insertion into a sorted list, the building block of the sort that
`np.percentile` performs internally. -/
def insertSorted (x : ℝ) : List ℝ → List ℝ
  | [] => [x]
  | y :: ys => if x ≤ y then x :: y :: ys else y :: insertSorted x ys

/-- The list sorted into nondecreasing order (insertion sort). -/
def sorted (l : List ℝ) : List ℝ := l.foldr insertSorted []

/-- The statistic `np.percentile(a, p)` with the default linear interpolation: with the data
sorted as `s` and rank `r = p/100 · (n − 1)`, the result is
`s[⌊r⌋] + (r − ⌊r⌋) · (s[⌊r⌋+1] − s[⌊r⌋])` (the upper index clamped to the
last position, which matters only when the fractional part is zero). -/
def percentile (l : List ℝ) (p : ℝ) : ℝ :=
  let s := sorted l
  let n := l.length
  let r := p / 100 * ((n : ℝ) - 1)
  let i := ⌊r⌋₊
  let lo := s.getD i 0
  let hi := s.getD (min (i + 1) (n - 1)) 0
  lo + (r - (i : ℝ)) * (hi - lo)

/-- The slope coefficient `np.polyfit(range(len(a)), a, 1)[0]`: the
least-squares slope of the values against their 0-based positional index,
`(n·Σ i·yᵢ − (Σ i)(Σ yᵢ)) / (n·Σ i² − (Σ i)²)`.  For a single data point the
denominator is zero and the division in the embedding yields `0`, matching the
minimum-norm solution numpy returns for that degenerate system. -/
def polyfitSlope (l : List ℝ) : ℝ :=
  let n : ℝ := l.length
  let xs : List ℝ := (List.range l.length).map fun i => (i : ℝ)
  let sxy := ((xs.zip l).map fun p => p.1 * p.2).sum
  (n * sxy - xs.sum * l.sum) / (n * (xs.map fun v => v ^ 2).sum - xs.sum ^ 2)

end np

/-- Append to a Python `deque(maxlen := c)`: the new element goes to the back
and the front is evicted once the length would exceed `c`. -/
def dequeAppend (c : ℕ) (w : List ℝ) (x : ℝ) : List ℝ :=
  let w' := w ++ [x]
  w'.drop (w'.length - c)

/-- The Python expression `d or 1` applied to a float `d`: `1` when `d == 0.0` (falsy),
otherwise `d` itself.  This is the zero-std guard used for denominators. -/
def pyOr (d : ℝ) : ℝ := if d = 0 then 1 else d

/-- The Python builtin `max` over a list produced by a comprehension; the source only
applies it to nonempty lists, and the `[]` case is an arbitrary default. -/
def pyMax : List ℝ → ℝ
  | [] => 0
  | x :: xs => xs.foldl max x

/-- The method `FeatureExtractor.extract` from `feature_extraction.py`: append `x` to the
window; if the window is still below capacity return `[x]`, otherwise return
the six features `[x, mean, std, z-score of x, IQR, trend slope]`, all over
the post-append window.  Returns the new window together with the features. -/
def FeatureExtractor.extract (size : ℕ) (w : List ℝ) (x : ℝ) : List ℝ × List ℝ :=
  let w' := dequeAppend size w x
  if w'.length < size then (w', [x])
  else
    (w', [x, np.mean w', np.std w',
          (x - np.mean w') / pyOr (np.std w'),
          np.percentile w' 75 - np.percentile w' 25,
          np.polyfitSlope w'])

/-- State of an `AnomalyDetector` from `anomaly_detection.py`: the configured
window size, the current z-threshold, the IQR factor, the feature extractor with its
sliding window, and the `scores_window` deque of recent maximum z-scores. -/
structure AnomalyDetector where
  window_size : ℕ
  z_threshold : ℝ
  iqr_factor : ℝ
  window : List ℝ
  scores_window : List ℝ

/-- The triple returned by `AnomalyDetector.detect`:
`(is_anomaly, max_z_score, iqr_threshold)`. -/
structure DetectOutput where
  is_anomaly : Prop
  max_z_score : ℝ
  iqr_threshold : ℝ

/-- A freshly constructed `AnomalyDetector`: both deques empty, the threshold
at its configured initial value. -/
def AnomalyDetector.init (window_size : ℕ) (initial_z_threshold iqr_factor : ℝ) :
    AnomalyDetector :=
  ⟨window_size, initial_z_threshold, iqr_factor, [], []⟩

/-- Constructor `AnomalyDetector.__init__` including its only possible failure: the body
performs no explicit validation, but `deque(maxlen=m)` raises `ValueError`
exactly when `m` is a negative integer, so construction fails iff
`window_size < 0`; `iqr_factor` is stored without any check. -/
def AnomalyDetector.mkChecked (window_size : ℤ)
    (initial_z_threshold iqr_factor : ℝ) : Option AnomalyDetector :=
  if window_size < 0 then none
  else some (AnomalyDetector.init window_size.toNat initial_z_threshold iqr_factor)

/-- The method `AnomalyDetector.detect` from `anomaly_detection.py`: extract features,
take the maximum absolute z-score of the features against the post-append
window, compute the IQR threshold, append the score to `scores_window`,
recompute `z_threshold` as `mean + 2·std` of the scores once that deque is at
capacity, and report `is_anomaly` as the disjunction of the z-score test and
the IQR test. -/
def AnomalyDetector.detect (s : AnomalyDetector) (x : ℝ) :
    AnomalyDetector × DetectOutput :=
  let fw := FeatureExtractor.extract s.window_size s.window x
  let w' := fw.1
  let features := fw.2
  let z_scores := features.map fun f => (f - np.mean w') / pyOr (np.std w')
  let max_z_score := pyMax (z_scores.map fun z => |z|)
  let iqr := np.percentile w' 75 - np.percentile w' 25
  let iqr_threshold := iqr * s.iqr_factor
  let scores' := dequeAppend s.window_size s.scores_window max_z_score
  let z_threshold' :=
    if scores'.length = s.window_size then np.mean scores' + 2 * np.std scores'
    else s.z_threshold
  let is_anomaly_z := max_z_score > z_threshold'
  let is_anomaly_iqr := |x - np.mean w'| > iqr_threshold
  ({ window_size := s.window_size, z_threshold := z_threshold',
     iqr_factor := s.iqr_factor, window := w', scores_window := scores' },
   { is_anomaly := is_anomaly_z ∨ is_anomaly_iqr, max_z_score := max_z_score,
     iqr_threshold := iqr_threshold })

/-- Feeding a list of data points to the detector, one `detect` call each. -/
def AnomalyDetector.run (s : AnomalyDetector) (l : List ℝ) : AnomalyDetector :=
  l.foldl (fun s x => (s.detect x).1) s

/-- Feeding a list of data points to a bare `FeatureExtractor`, one `extract`
call each, keeping only the window. -/
def FeatureExtractor.run (size : ℕ) (w : List ℝ) (l : List ℝ) : List ℝ :=
  l.foldl (fun w x => (FeatureExtractor.extract size w x).1) w

/-- The method `DynamicFeatureExtractor.extract_features` from `main.py`; the body is a
verbatim duplicate of `FeatureExtractor.extract`. -/
def DynamicFeatureExtractor.extract_features (size : ℕ) (w : List ℝ) (x : ℝ) :
    List ℝ × List ℝ :=
  let w' := dequeAppend size w x
  if w'.length < size then (w', [x])
  else
    (w', [x, np.mean w', np.std w',
          (x - np.mean w') / pyOr (np.std w'),
          np.percentile w' 75 - np.percentile w' 25,
          np.polyfitSlope w'])

/-- State of an `AdaptiveAnomalyDetector` from `main.py` (the pure z-score
variant): no `iqr_factor`. -/
structure AdaptiveAnomalyDetector where
  window_size : ℕ
  z_threshold : ℝ
  window : List ℝ
  scores_window : List ℝ

/-- The pair returned by `AdaptiveAnomalyDetector.detect_anomaly`:
`(is_anomaly, max_z_score)`. -/
structure AdaptiveOutput where
  is_anomaly : Prop
  max_z_score : ℝ

/-- A freshly constructed `AdaptiveAnomalyDetector`. -/
def AdaptiveAnomalyDetector.init (window_size : ℕ) (initial_z_threshold : ℝ) :
    AdaptiveAnomalyDetector :=
  ⟨window_size, initial_z_threshold, [], []⟩

/-- The method `AdaptiveAnomalyDetector.detect_anomaly` from `main.py`: identical to
`AnomalyDetector.detect` except that there is no IQR computation and the
verdict is the z-score test alone. -/
def AdaptiveAnomalyDetector.detect_anomaly (s : AdaptiveAnomalyDetector) (x : ℝ) :
    AdaptiveAnomalyDetector × AdaptiveOutput :=
  let fw := DynamicFeatureExtractor.extract_features s.window_size s.window x
  let w' := fw.1
  let features := fw.2
  let z_scores := features.map fun f => (f - np.mean w') / pyOr (np.std w')
  let max_z_score := pyMax (z_scores.map fun z => |z|)
  let scores' := dequeAppend s.window_size s.scores_window max_z_score
  let z_threshold' :=
    if scores'.length = s.window_size then np.mean scores' + 2 * np.std scores'
    else s.z_threshold
  let is_anomaly := max_z_score > z_threshold'
  ({ window_size := s.window_size, z_threshold := z_threshold',
     window := w', scores_window := scores' },
   { is_anomaly := is_anomaly, max_z_score := max_z_score })

/-- Feeding a list of data points to the pure z-score variant. -/
def AdaptiveAnomalyDetector.run (s : AdaptiveAnomalyDetector) (l : List ℝ) :
    AdaptiveAnomalyDetector :=
  l.foldl (fun s x => (s.detect_anomaly x).1) s

/-! ### Basic lemmas about the embedded operations -/

theorem dequeAppend_length (c : ℕ) (w : List ℝ) (x : ℝ) :
    (dequeAppend c w x).length = min (w.length + 1) c := by
  simp only [dequeAppend, List.length_drop, List.length_append, List.length_cons,
    List.length_nil]
  omega

theorem mem_dequeAppend {c : ℕ} {w : List ℝ} {x y : ℝ}
    (h : y ∈ dequeAppend c w x) : y ∈ w ∨ y = x := by
  have h' : y ∈ w ++ [x] := List.drop_subset _ _ h
  simpa using h'

theorem extract_fst (size : ℕ) (w : List ℝ) (x : ℝ) :
    (FeatureExtractor.extract size w x).1 = dequeAppend size w x := by
  simp only [FeatureExtractor.extract]
  split <;> rfl

theorem extract_features_fst (size : ℕ) (w : List ℝ) (x : ℝ) :
    (DynamicFeatureExtractor.extract_features size w x).1 = dequeAppend size w x := by
  simp only [DynamicFeatureExtractor.extract_features]
  split <;> rfl

theorem extract_features_eq_extract :
    DynamicFeatureExtractor.extract_features = FeatureExtractor.extract := rfl

theorem le_foldl_max (l : List ℝ) (a : ℝ) : a ≤ l.foldl max a := by
  induction l generalizing a with
  | nil => exact le_rfl
  | cons b t ih => exact le_trans (le_max_left a b) (ih (max a b))

theorem pyMax_abs_nonneg (l : List ℝ) :
    0 ≤ pyMax (l.map fun z => |z|) := by
  cases l with
  | nil => exact le_rfl
  | cons z zs =>
    simp only [pyMax, List.map_cons]
    exact le_trans (abs_nonneg z) (le_foldl_max _ _)

theorem detect_fst_window_size (s : AnomalyDetector) (x : ℝ) :
    (s.detect x).1.window_size = s.window_size := rfl

theorem detect_fst_iqr_factor (s : AnomalyDetector) (x : ℝ) :
    (s.detect x).1.iqr_factor = s.iqr_factor := rfl

theorem detect_fst_window (s : AnomalyDetector) (x : ℝ) :
    (s.detect x).1.window = dequeAppend s.window_size s.window x := by
  simp only [AnomalyDetector.detect, extract_fst]

theorem detect_fst_scores_window (s : AnomalyDetector) (x : ℝ) :
    (s.detect x).1.scores_window =
      dequeAppend s.window_size s.scores_window (s.detect x).2.max_z_score := rfl

theorem detect_fst_z_threshold (s : AnomalyDetector) (x : ℝ) :
    (s.detect x).1.z_threshold =
      if (dequeAppend s.window_size s.scores_window
            (s.detect x).2.max_z_score).length = s.window_size
      then np.mean (dequeAppend s.window_size s.scores_window
             (s.detect x).2.max_z_score) +
           2 * np.std (dequeAppend s.window_size s.scores_window
             (s.detect x).2.max_z_score)
      else s.z_threshold := rfl

theorem run_nil (s : AnomalyDetector) : s.run [] = s := rfl

theorem run_cons (s : AnomalyDetector) (x : ℝ) (l : List ℝ) :
    s.run (x :: l) = ((s.detect x).1).run l := rfl

theorem run_append_singleton (s : AnomalyDetector) (l : List ℝ) (x : ℝ) :
    s.run (l ++ [x]) = ((s.run l).detect x).1 := by
  simp [AnomalyDetector.run, List.foldl_append]

theorem run_window_size (l : List ℝ) : ∀ s : AnomalyDetector,
    (s.run l).window_size = s.window_size := by
  induction l with
  | nil => intro s; rfl
  | cons x t ih =>
    intro s
    rw [run_cons, ih, detect_fst_window_size]

theorem run_window_length (l : List ℝ) : ∀ s : AnomalyDetector,
    s.window.length ≤ s.window_size →
    (s.run l).window.length = min (s.window.length + l.length) s.window_size := by
  induction l with
  | nil => intro s h; simp only [run_nil, List.length_nil, Nat.add_zero]; omega
  | cons x t ih =>
    intro s h
    rw [run_cons]
    have hstep : (s.detect x).1.window.length = min (s.window.length + 1) s.window_size := by
      rw [detect_fst_window, dequeAppend_length]
    have := ih (s.detect x).1
      (by rw [hstep, detect_fst_window_size]; exact min_le_right _ _)
    rw [this, hstep, detect_fst_window_size, List.length_cons]
    omega

theorem run_scores_length (l : List ℝ) : ∀ s : AnomalyDetector,
    s.scores_window.length ≤ s.window_size →
    (s.run l).scores_window.length =
      min (s.scores_window.length + l.length) s.window_size := by
  induction l with
  | nil => intro s h; simp only [run_nil, List.length_nil, Nat.add_zero]; omega
  | cons x t ih =>
    intro s h
    rw [run_cons]
    have hstep : (s.detect x).1.scores_window.length =
        min (s.scores_window.length + 1) s.window_size := by
      rw [detect_fst_scores_window, dequeAppend_length]
    have := ih (s.detect x).1
      (by rw [hstep, detect_fst_window_size]; exact min_le_right _ _)
    rw [this, hstep, detect_fst_window_size, List.length_cons]
    omega

theorem detect_score_nonneg (s : AnomalyDetector) (x : ℝ) :
    0 ≤ (s.detect x).2.max_z_score := by
  have h := pyMax_abs_nonneg
    (((FeatureExtractor.extract s.window_size s.window x).2).map fun f =>
      (f - np.mean (dequeAppend s.window_size s.window x)) /
        pyOr (np.std (dequeAppend s.window_size s.window x)))
  simpa only [AnomalyDetector.detect, extract_fst] using h

theorem run_scores_nonneg (l : List ℝ) : ∀ s : AnomalyDetector,
    (∀ y ∈ s.scores_window, 0 ≤ y) →
    ∀ y ∈ (s.run l).scores_window, 0 ≤ y := by
  induction l with
  | nil => intro s h; exact h
  | cons x t ih =>
    intro s h
    rw [run_cons]
    refine ih (s.detect x).1 ?_
    intro y hy
    rw [detect_fst_scores_window] at hy
    rcases mem_dequeAppend hy with hmem | hx
    · exact h y hmem
    · rw [hx]; exact detect_score_nonneg s x

/-! ### C2 — construction-time validation -/

/-- C2 counterexample: the claim says a non-positive window size or a
non-positive `iqr_factor` is rejected at construction, but constructing with
`window_size = 0` succeeds and so does constructing with `iqr_factor = -1`:
`__init__` performs no validation of its own, and `deque` only rejects a
negative `maxlen`. -/
theorem c2_counterexample :
    (AnomalyDetector.mkChecked 0 3 (3 / 2)).isSome = true ∧
    (AnomalyDetector.mkChecked 5 3 (-1)).isSome = true := by
  constructor <;> rfl

/-- C2 amended: construction fails exactly when the window size is negative
(the `deque(maxlen=...)` check); a window size of zero and any `iqr_factor`,
including non-positive ones, are accepted without error. -/
theorem c2_amended (window_size : ℤ) (initial_z_threshold iqr_factor : ℝ) :
    (AnomalyDetector.mkChecked window_size initial_z_threshold iqr_factor).isSome
      = true ↔ 0 ≤ window_size := by
  unfold AnomalyDetector.mkChecked
  split <;> simp <;> omega

/-! ### C5 — the score is the maximum absolute z-score of the features -/

/-- C5: on every `detect` call the returned score is the maximum over the
just-extracted feature vector of `|(f − mean w') / d|`, where `w'` is the
post-append window and `d` is its standard deviation with `1` substituted
exactly when the standard deviation is `0`; the substitution applies only to
denominators (the std entry of the feature vector itself is the unguarded standard
deviation), and during cold start the feature vector is the single-element
`[x]`. -/
theorem c5_score_is_max_abs_z (s : AnomalyDetector) (x : ℝ) :
    (s.detect x).2.max_z_score =
      pyMax (((FeatureExtractor.extract s.window_size s.window x).2).map
        fun f => |(f - np.mean (dequeAppend s.window_size s.window x)) /
          pyOr (np.std (dequeAppend s.window_size s.window x))|) ∧
    (¬ (dequeAppend s.window_size s.window x).length < s.window_size →
      ((FeatureExtractor.extract s.window_size s.window x).2).getD 2 0 =
        np.std (dequeAppend s.window_size s.window x)) ∧
    ((dequeAppend s.window_size s.window x).length < s.window_size →
      (FeatureExtractor.extract s.window_size s.window x).2 = [x]) := by
  refine ⟨?_, ?_, ?_⟩
  · simp only [AnomalyDetector.detect, extract_fst, List.map_map]
    rfl
  · intro h
    simp only [FeatureExtractor.extract]
    rw [if_neg h]
    rfl
  · intro h
    simp only [FeatureExtractor.extract]
    rw [if_pos h]

/-- Witness for C5 at a concrete full-window input. -/
theorem c5_score_is_max_abs_z_witness :
    ((AnomalyDetector.init 1 3 1).detect 10).2.max_z_score =
      pyMax (((FeatureExtractor.extract 1 [] 10).2).map
        fun f => |(f - np.mean (dequeAppend 1 [] 10)) /
          pyOr (np.std (dequeAppend 1 [] 10))|) ∧
    ((FeatureExtractor.extract 1 [] 10).2).getD 2 0 =
      np.std (dequeAppend 1 [] 10) :=
  ⟨(c5_score_is_max_abs_z (AnomalyDetector.init 1 3 1) 10).1,
   (c5_score_is_max_abs_z (AnomalyDetector.init 1 3 1) 10).2.1
     (by norm_num [AnomalyDetector.init, dequeAppend])⟩

/-! ### C9 — window and score history lengths agree -/

/-- C9: after `n` calls on a freshly constructed detector with window size
`c ≥ 1`, the sliding window and the score history have equal length, namely
`min n c`; in particular the score history reaches capacity on the same step
as the sliding window. -/
theorem c9_window_and_history_lengths (c : ℕ) (h : 1 ≤ c) (t f : ℝ)
    (l : List ℝ) :
    (AnomalyDetector.run (AnomalyDetector.init c t f) l).window.length =
      min l.length c ∧
    (AnomalyDetector.run (AnomalyDetector.init c t f) l).scores_window.length =
      min l.length c := by
  constructor
  · have := run_window_length l (AnomalyDetector.init c t f)
      (by simp [AnomalyDetector.init])
    simpa [AnomalyDetector.init] using this
  · have := run_scores_length l (AnomalyDetector.init c t f)
      (by simp [AnomalyDetector.init])
    simpa [AnomalyDetector.init] using this

/-- Witness for C9 at a concrete configuration and input list. -/
theorem c9_window_and_history_lengths_witness :
    1 ≤ 1 ∧
    ((AnomalyDetector.run (AnomalyDetector.init 1 3 (3 / 2)) [5]).window.length =
       min (List.length [(5 : ℝ)]) 1 ∧
     (AnomalyDetector.run (AnomalyDetector.init 1 3 (3 / 2))
         [5]).scores_window.length = min (List.length [(5 : ℝ)]) 1) :=
  ⟨le_rfl, c9_window_and_history_lengths 1 le_rfl 3 (3 / 2) [5]⟩

/-! ### C10 — scores are non-negative -/

/-- C10: the score returned by every `detect` call along a run is non-negative
(it is the maximum of absolute values over a nonempty list), so every entry
ever stored in the score history is non-negative. -/
theorem c10_scores_nonneg (c : ℕ) (h : 1 ≤ c) (t f : ℝ) (l : List ℝ) :
    (∀ x : ℝ,
      0 ≤ ((AnomalyDetector.run (AnomalyDetector.init c t f) l).detect
             x).2.max_z_score) ∧
    (∀ y ∈ (AnomalyDetector.run (AnomalyDetector.init c t f) l).scores_window,
      0 ≤ y) := by
  refine ⟨fun x => detect_score_nonneg _ x, run_scores_nonneg l _ ?_⟩
  intro y hy
  simp [AnomalyDetector.init] at hy

/-- Witness for C10: a concrete run and a concrete next input. -/
theorem c10_scores_nonneg_witness :
    1 ≤ 1 ∧
    0 ≤ ((AnomalyDetector.run (AnomalyDetector.init 1 3 (3 / 2)) [5]).detect
           7).2.max_z_score :=
  ⟨le_rfl, (c10_scores_nonneg 1 le_rfl 3 (3 / 2) [5]).1 7⟩

/-! ### C6 — shape of the extracted feature vector -/

theorem extract_run_cons (size : ℕ) (w : List ℝ) (x : ℝ) (l : List ℝ) :
    FeatureExtractor.run size w (x :: l) =
      FeatureExtractor.run size (FeatureExtractor.extract size w x).1 l := rfl

theorem extract_run_length (size : ℕ) (l : List ℝ) : ∀ w : List ℝ,
    w.length ≤ size →
    (FeatureExtractor.run size w l).length = min (w.length + l.length) size := by
  induction l with
  | nil =>
    intro w h
    simp only [FeatureExtractor.run, List.foldl_nil, List.length_nil, Nat.add_zero]
    omega
  | cons x t ih =>
    intro w h
    rw [extract_run_cons]
    have hstep : (FeatureExtractor.extract size w x).1.length =
        min (w.length + 1) size := by
      rw [extract_fst, dequeAppend_length]
    have := ih (FeatureExtractor.extract size w x).1
      (by rw [hstep]; exact min_le_right _ _)
    rw [this, hstep, List.length_cons]
    omega

/-- C6: with window size `c ≥ 1`, on step count `n` (i.e. after `n − 1`
previous calls), `extract` returns the single-element vector `[x]` when
`n < c`, and when `n ≥ c` it returns exactly the six scalars
`[raw, mean, std, z-score of raw, IQR, trend slope]`, all computed over the
post-append window. -/
theorem c6_feature_vector_shape (size : ℕ) (h : 1 ≤ size) (prev : List ℝ)
    (x : ℝ) :
    (prev.length + 1 < size →
      (FeatureExtractor.extract size (FeatureExtractor.run size [] prev) x).2 =
        [x]) ∧
    (size ≤ prev.length + 1 →
      (FeatureExtractor.extract size (FeatureExtractor.run size [] prev) x).2 =
        [x,
         np.mean (dequeAppend size (FeatureExtractor.run size [] prev) x),
         np.std (dequeAppend size (FeatureExtractor.run size [] prev) x),
         (x - np.mean (dequeAppend size (FeatureExtractor.run size [] prev) x)) /
           pyOr (np.std (dequeAppend size (FeatureExtractor.run size [] prev) x)),
         np.percentile (dequeAppend size (FeatureExtractor.run size [] prev) x) 75 -
           np.percentile (dequeAppend size (FeatureExtractor.run size [] prev) x) 25,
         np.polyfitSlope (dequeAppend size (FeatureExtractor.run size [] prev) x)]) := by
  have hW : (FeatureExtractor.run size [] prev).length = min prev.length size := by
    have := extract_run_length size prev [] (by simp)
    simpa using this
  have hlen : (dequeAppend size (FeatureExtractor.run size [] prev) x).length =
      min (min prev.length size + 1) size := by
    rw [dequeAppend_length, hW]
  constructor
  · intro hn
    simp only [FeatureExtractor.extract]
    rw [if_pos (by rw [hlen]; omega)]
  · intro hn
    simp only [FeatureExtractor.extract]
    rw [if_neg (by rw [hlen]; omega)]

/-- Witness for C6 at a concrete full-window step. -/
theorem c6_feature_vector_shape_witness :
    (FeatureExtractor.extract 2 (FeatureExtractor.run 2 [] [7]) 9).2 =
      [9,
       np.mean (dequeAppend 2 (FeatureExtractor.run 2 [] [7]) 9),
       np.std (dequeAppend 2 (FeatureExtractor.run 2 [] [7]) 9),
       (9 - np.mean (dequeAppend 2 (FeatureExtractor.run 2 [] [7]) 9)) /
         pyOr (np.std (dequeAppend 2 (FeatureExtractor.run 2 [] [7]) 9)),
       np.percentile (dequeAppend 2 (FeatureExtractor.run 2 [] [7]) 9) 75 -
         np.percentile (dequeAppend 2 (FeatureExtractor.run 2 [] [7]) 9) 25,
       np.polyfitSlope (dequeAppend 2 (FeatureExtractor.run 2 [] [7]) 9)] :=
  (c6_feature_vector_shape 2 (by norm_num) [7] 9).2 (by simp)

/-! ### C4 — threshold evolution -/

/-- C4: with window size `c ≥ 1`, the threshold equals the configured initial
constant after every run of fewer than `c` steps, and after every run of at
least `c` steps it equals `mean + 2·std` of the current score history — i.e.
it is recomputed on the first step at which the history reaches capacity and
on every subsequent step, never reverting to the initial constant. -/
theorem c4_threshold_evolution (c : ℕ) (h : 1 ≤ c) (t f : ℝ) (l : List ℝ) :
    (l.length < c →
      (AnomalyDetector.run (AnomalyDetector.init c t f) l).z_threshold = t) ∧
    (c ≤ l.length →
      (AnomalyDetector.run (AnomalyDetector.init c t f) l).z_threshold =
        np.mean (AnomalyDetector.run (AnomalyDetector.init c t f) l).scores_window +
          2 * np.std (AnomalyDetector.run
            (AnomalyDetector.init c t f) l).scores_window) := by
  induction l using List.reverseRecOn with
  | nil =>
    refine ⟨fun _ => rfl, fun hc => ?_⟩
    simp only [List.length_nil] at hc
    omega
  | append_singleton l x ih =>
    rw [run_append_singleton]
    have hws : (AnomalyDetector.run (AnomalyDetector.init c t f) l).window_size
        = c := by
      rw [run_window_size]
      rfl
    have hsc : (AnomalyDetector.run
        (AnomalyDetector.init c t f) l).scores_window.length = min l.length c := by
      have := run_scores_length l (AnomalyDetector.init c t f)
        (by simp [AnomalyDetector.init])
      simpa [AnomalyDetector.init] using this
    rw [detect_fst_z_threshold, detect_fst_scores_window]
    have hlen : (dequeAppend
        (AnomalyDetector.run (AnomalyDetector.init c t f) l).window_size
        (AnomalyDetector.run (AnomalyDetector.init c t f) l).scores_window
        ((AnomalyDetector.run (AnomalyDetector.init c t f) l).detect
          x).2.max_z_score).length = min (min l.length c + 1) c := by
      rw [dequeAppend_length, hsc, hws]
    by_cases hcase : c ≤ l.length + 1
    · rw [if_pos (by rw [hlen, hws]; omega)]
      refine ⟨fun hlt => ?_, fun _ => rfl⟩
      simp only [List.length_append, List.length_cons, List.length_nil] at hlt
      omega
    · rw [if_neg (by rw [hlen, hws]; omega)]
      refine ⟨fun _ => ih.1 (by omega), fun hc2 => ?_⟩
      simp only [List.length_append, List.length_cons, List.length_nil] at hc2
      omega

/-- Witness for C4: a run of length `1 = c`, whose final threshold is the
recalibrated `mean + 2·std` of the score history. -/
theorem c4_threshold_evolution_witness :
    1 ≤ 1 ∧
    (AnomalyDetector.run (AnomalyDetector.init 1 3 (3 / 2)) [5]).z_threshold =
      np.mean (AnomalyDetector.run
        (AnomalyDetector.init 1 3 (3 / 2)) [5]).scores_window +
        2 * np.std (AnomalyDetector.run
          (AnomalyDetector.init 1 3 (3 / 2)) [5]).scores_window :=
  ⟨le_rfl, (c4_threshold_evolution 1 le_rfl 3 (3 / 2) [5]).2 (by simp)⟩

/-! ### C7 — the IQR secondary test of the extended variant -/

/-- C7: every `detect` call of the extended variant computes the IQR threshold
as `(percentile 75 − percentile 25) · iqr_factor` over the post-append window,
returns it alongside the verdict and score, and the verdict is the disjunction
of the z-score test and the IQR test `|x − mean| > iqr_threshold`. -/
theorem c7_iqr_secondary_test (s : AnomalyDetector) (x : ℝ) :
    (s.detect x).2.iqr_threshold =
      (np.percentile (dequeAppend s.window_size s.window x) 75 -
       np.percentile (dequeAppend s.window_size s.window x) 25) * s.iqr_factor ∧
    ((s.detect x).2.is_anomaly ↔
      ((s.detect x).2.max_z_score > (s.detect x).1.z_threshold ∨
       |x - np.mean (dequeAppend s.window_size s.window x)| >
         (s.detect x).2.iqr_threshold)) := by
  constructor
  · simp only [AnomalyDetector.detect, extract_fst]
  · simp only [AnomalyDetector.detect, extract_fst]

/-! ### Evaluation lemmas for constant windows -/

theorem dequeAppend_of_le {c : ℕ} {w : List ℝ} (x : ℝ) (h : w.length + 1 ≤ c) :
    dequeAppend c w x = w ++ [x] := by
  simp only [dequeAppend, List.length_append, List.length_cons, List.length_nil]
  rw [Nat.sub_eq_zero_of_le (by omega), List.drop_zero]

theorem mean_replicate {k : ℕ} (hk : 1 ≤ k) (v : ℝ) :
    np.mean (List.replicate k v) = v := by
  rw [np.mean, List.sum_replicate, List.length_replicate, nsmul_eq_mul]
  field_simp

theorem var_replicate (k : ℕ) (v : ℝ) : np.var (List.replicate k v) = 0 := by
  rcases Nat.eq_zero_or_pos k with hk | hk
  · subst hk; simp [np.var]
  · rw [np.var, mean_replicate hk]
    simp

theorem std_replicate (k : ℕ) (v : ℝ) : np.std (List.replicate k v) = 0 := by
  rw [np.std, var_replicate, Real.sqrt_zero]

theorem insertSorted_replicate (k : ℕ) (v : ℝ) :
    np.insertSorted v (List.replicate k v) = List.replicate (k + 1) v := by
  cases k with
  | zero => rfl
  | succ m =>
    rw [List.replicate_succ, np.insertSorted, if_pos le_rfl, ← List.replicate_succ,
      ← List.replicate_succ]

theorem sorted_replicate (k : ℕ) (v : ℝ) :
    np.sorted (List.replicate k v) = List.replicate k v := by
  induction k with
  | zero => rfl
  | succ m ih =>
    rw [List.replicate_succ, np.sorted, List.foldr_cons]
    have : List.foldr np.insertSorted [] (List.replicate m v) =
        np.sorted (List.replicate m v) := rfl
    rw [this, ih, insertSorted_replicate]
    simp [List.replicate_succ]

theorem getD_replicate_of_lt {k i : ℕ} (h : i < k) (v d : ℝ) :
    (List.replicate k v).getD i d = v := by
  rw [List.getD_eq_getElem?_getD, List.getElem?_replicate, if_pos h, Option.getD_some]

theorem percentile_replicate {k : ℕ} (hk : 1 ≤ k) (v : ℝ) {p : ℝ}
    (hp0 : 0 ≤ p) (hp1 : p ≤ 100) :
    np.percentile (List.replicate k v) p = v := by
  have hcast : ((List.replicate k v).length : ℝ) - 1 = ((k - 1 : ℕ) : ℝ) := by
    rw [List.length_replicate]
    push_cast [hk]
    ring
  have hr0 : (0 : ℝ) ≤ p / 100 * ((k - 1 : ℕ) : ℝ) := by positivity
  have hr1 : p / 100 * ((k - 1 : ℕ) : ℝ) ≤ ((k - 1 : ℕ) : ℝ) := by
    have h100 : p / 100 ≤ 1 := by linarith
    nlinarith [Nat.cast_nonneg (α := ℝ) (k - 1)]
  have hfloor : ⌊p / 100 * ((k - 1 : ℕ) : ℝ)⌋₊ ≤ k - 1 := by
    calc ⌊p / 100 * ((k - 1 : ℕ) : ℝ)⌋₊ ≤ ⌊((k - 1 : ℕ) : ℝ)⌋₊ :=
          Nat.floor_mono hr1
    _ = k - 1 := Nat.floor_natCast _
  rw [np.percentile, sorted_replicate, hcast]
  have hlo : (List.replicate k v).getD ⌊p / 100 * ((k - 1 : ℕ) : ℝ)⌋₊ 0 = v :=
    getD_replicate_of_lt (by omega) v 0
  have hhi : (List.replicate k v).getD
      (min (⌊p / 100 * ((k - 1 : ℕ) : ℝ)⌋₊ + 1) ((List.replicate k v).length - 1))
      0 = v :=
    getD_replicate_of_lt (by rw [List.length_replicate]; omega) v 0
  rw [hlo, hhi]
  ring

theorem range_five : List.range 5 = [0, 1, 2, 3, 4] := rfl

theorem polyfitSlope_five_tens : np.polyfitSlope (List.replicate 5 10) = 0 := by
  show np.polyfitSlope [10, 10, 10, 10, 10] = 0
  rw [np.polyfitSlope]
  norm_num [range_five, List.zipWith]

theorem polyfitSlope_spike : np.polyfitSlope [10, 10, 10, 10, 1000] = 198 := by
  rw [np.polyfitSlope]
  norm_num [range_five, List.zipWith]

theorem pyOr_zero : pyOr 0 = 1 := by simp [pyOr]

theorem sqrt_sixteen : Real.sqrt 16 = 4 := by
  rw [show (16 : ℝ) = 4 ^ 2 by norm_num, Real.sqrt_sq (by norm_num)]

/-- One cold-start `detect` step on a window of `k` copies of `v` (window not
yet full after the append, score history strictly below capacity after the
append): the extracted vector is `[v]`, the z-score is `0`, the score `0` is
appended to the history, and the threshold is untouched. -/
theorem detect_cold_const (c : ℕ) (t f v : ℝ) (k : ℕ) (sc : List ℝ)
    (hwin : k + 1 < c) (hsc : sc.length + 1 < c) :
    (AnomalyDetector.detect ⟨c, t, f, List.replicate k v, sc⟩ v).1 =
      ⟨c, t, f, List.replicate (k + 1) v, sc ++ [0]⟩ := by
  have hw : dequeAppend c (List.replicate k v) v = List.replicate (k + 1) v := by
    rw [dequeAppend_of_le _ (by rw [List.length_replicate]; omega),
      ← List.replicate_succ']
  have hscApp : dequeAppend c sc 0 = sc ++ [0] :=
    dequeAppend_of_le _ (by omega)
  have hneq : ¬ ((sc ++ [0] : List ℝ).length = c) := by
    rw [List.length_append, List.length_cons, List.length_nil]
    omega
  simp only [AnomalyDetector.detect, FeatureExtractor.extract, hw,
    List.length_replicate]
  rw [if_pos hwin]
  dsimp only
  simp only [List.map_cons, List.map_nil]
  rw [mean_replicate (by omega) v, sub_self, zero_div, abs_zero]
  simp only [pyMax, List.foldl_nil]
  rw [hscApp, if_neg hneq]

/-- The fifth `detect` step of the constant-10 scenario with `window_size = 5`:
the window becomes full with five equal values, the feature vector is
`[10, 10, 0, 0, 0, 0]`, the z-scores against the zero-std window (denominator
guarded to `1`) are `[0, 0, -10, -10, -10, -10]`, so the score is `10`; the
score history `[0,0,0,0,10]` reaches capacity and the threshold is
recalibrated to `2 + 2·4 = 10`. -/
theorem detect_step5 :
    (AnomalyDetector.detect ⟨5, 3, 3 / 2, List.replicate 4 10,
        List.replicate 4 0⟩ 10).1 =
      ⟨5, 10, 3 / 2, List.replicate 5 10, [0, 0, 0, 0, 10]⟩ := by
  have hw : dequeAppend 5 (List.replicate 4 10) 10 = List.replicate 5 10 := by
    rw [dequeAppend_of_le _ (by rw [List.length_replicate]),
      ← List.replicate_succ']
  have hscApp : dequeAppend 5 (List.replicate 4 0) 10 = [0, 0, 0, 0, 10] := by
    rw [dequeAppend_of_le _ (by rw [List.length_replicate])]
    rfl
  have hmean : np.mean (List.replicate 5 10) = 10 := mean_replicate (by omega) 10
  have hstd : np.std (List.replicate 5 10) = 0 := std_replicate 5 10
  have hp75 : np.percentile (List.replicate 5 10) 75 = 10 :=
    percentile_replicate (by omega) 10 (by norm_num) (by norm_num)
  have hp25 : np.percentile (List.replicate 5 10) 25 = 10 :=
    percentile_replicate (by omega) 10 (by norm_num) (by norm_num)
  have hsmean : np.mean [0, 0, 0, 0, (10 : ℝ)] = 2 := by
    rw [np.mean]; norm_num
  have hsvar : np.var [0, 0, 0, 0, (10 : ℝ)] = 16 := by
    rw [np.var, hsmean]
    norm_num
  have hsstd : np.std [0, 0, 0, 0, (10 : ℝ)] = 4 := by
    rw [np.std, hsvar]
    exact sqrt_sixteen
  simp only [AnomalyDetector.detect, FeatureExtractor.extract, hw,
    List.length_replicate]
  rw [if_neg (show ¬ ((5 : ℕ) < 5) by omega)]
  dsimp only
  rw [hmean, hstd, hp75, hp25, polyfitSlope_five_tens, pyOr_zero]
  simp only [List.map_cons, List.map_nil]
  norm_num [pyMax, max_def, List.foldl_cons, List.foldl_nil]
  rw [hscApp]
  norm_num [hsmean, hsstd]

/-- The state after feeding five 10s to a fresh detector with
`window_size = 5`, `initial_z_threshold = 3`, `iqr_factor = 3/2`: the window
holds five 10s, the score history is `[0, 0, 0, 0, 10]` (the fifth step's
full-window features already produce a score of `10`), and the threshold has
been recalibrated to `10`. -/
theorem trace_state5 :
    AnomalyDetector.run (AnomalyDetector.init 5 3 (3 / 2))
        [10, 10, 10, 10, 10] =
      ⟨5, 10, 3 / 2, List.replicate 5 10, [0, 0, 0, 0, 10]⟩ := by
  have h0 := detect_cold_const 5 3 (3 / 2) 10 0 (List.replicate 0 0)
    (by omega) (by simp)
  have h1 := detect_cold_const 5 3 (3 / 2) 10 1 (List.replicate 1 0)
    (by omega) (by simp)
  have h2 := detect_cold_const 5 3 (3 / 2) 10 2 (List.replicate 2 0)
    (by omega) (by simp)
  have h3 := detect_cold_const 5 3 (3 / 2) 10 3 (List.replicate 3 0)
    (by omega) (by simp)
  rw [← List.replicate_succ'] at h0 h1 h2 h3
  have hinit : AnomalyDetector.init 5 3 (3 / 2) =
      ⟨5, 3, 3 / 2, List.replicate 0 10, List.replicate 0 0⟩ := rfl
  rw [run_cons, run_cons, run_cons, run_cons, run_cons, hinit, h0, h1, h2, h3,
    detect_step5, run_nil]

theorem mean_spike : np.mean [10, 10, 10, 10, (1000 : ℝ)] = 208 := by
  rw [np.mean]; norm_num

theorem var_spike : np.var [10, 10, 10, 10, (1000 : ℝ)] = 156816 := by
  rw [np.var, mean_spike]; norm_num

theorem std_spike : np.std [10, 10, 10, 10, (1000 : ℝ)] = 396 := by
  rw [np.std, var_spike, show (156816 : ℝ) = 396 ^ 2 by norm_num,
    Real.sqrt_sq (by norm_num)]

theorem sorted_spike :
    np.sorted [10, 10, 10, 10, (1000 : ℝ)] = [10, 10, 10, 10, 1000] := by
  rw [np.sorted]
  norm_num [np.insertSorted]

theorem p75_spike : np.percentile [10, 10, 10, 10, (1000 : ℝ)] 75 = 10 := by
  rw [np.percentile, sorted_spike]
  norm_num [Nat.floor_ofNat, List.getD_cons_succ, List.getD_cons_zero]

theorem p25_spike : np.percentile [10, 10, 10, 10, (1000 : ℝ)] 25 = 10 := by
  rw [np.percentile, sorted_spike]
  norm_num [Nat.floor_one, List.getD_cons_succ, List.getD_cons_zero]

theorem mean_scores6c3 : np.mean [0, 0, 0, 10, (2 : ℝ)] = 12 / 5 := by
  rw [np.mean]; norm_num

theorem var_scores6c3 : np.var [0, 0, 0, 10, (2 : ℝ)] = 376 / 25 := by
  rw [np.var, mean_scores6c3]; norm_num

theorem std_scores6c3 : np.std [0, 0, 0, 10, (2 : ℝ)] = Real.sqrt (376 / 25) := by
  rw [np.std, var_scores6c3]

theorem mean_scores6c1 : np.mean [0, 0, 0, 10, (10 : ℝ)] = 4 := by
  rw [np.mean]; norm_num

theorem var_scores6c1 : np.var [0, 0, 0, 10, (10 : ℝ)] = 24 := by
  rw [np.var, mean_scores6c1]; norm_num

theorem std_scores6c1 : np.std [0, 0, 0, 10, (10 : ℝ)] = Real.sqrt 24 := by
  rw [np.std, var_scores6c1]

theorem sqrt24_ge_three : (3 : ℝ) ≤ Real.sqrt 24 :=
  (Real.le_sqrt (by norm_num) (by norm_num)).mpr (by norm_num)

/-- The sixth step of the constant-10 scenario: the score is again `10`
(the derived features std/z/IQR/slope all sit 10 guarded-standard-deviations
below the mean), and the verdict is not an anomaly, because the recalibrated
threshold `4 + 2·√24 ≈ 13.8` exceeds the score and the IQR band is zero-width
at a zero deviation. -/
theorem detect_step6_c1 :
    ((⟨5, 10, 3 / 2, List.replicate 5 10, [0, 0, 0, 0, 10]⟩ :
        AnomalyDetector).detect 10).2.max_z_score = 10 ∧
    ¬ ((⟨5, 10, 3 / 2, List.replicate 5 10, [0, 0, 0, 0, 10]⟩ :
        AnomalyDetector).detect 10).2.is_anomaly := by
  have hw6 : dequeAppend 5 (List.replicate 5 10) 10 = List.replicate 5 10 := rfl
  have hsc6 : dequeAppend 5 [0, 0, 0, 0, (10 : ℝ)] 10 = [0, 0, 0, 10, 10] := rfl
  have hmean : np.mean (List.replicate 5 10) = 10 := mean_replicate (by omega) 10
  have hstd : np.std (List.replicate 5 10) = 0 := std_replicate 5 10
  have hp75 : np.percentile (List.replicate 5 10) 75 = 10 :=
    percentile_replicate (by omega) 10 (by norm_num) (by norm_num)
  have hp25 : np.percentile (List.replicate 5 10) 25 = 10 :=
    percentile_replicate (by omega) 10 (by norm_num) (by norm_num)
  simp only [AnomalyDetector.detect, FeatureExtractor.extract, hw6,
    List.length_replicate]
  rw [if_neg (show ¬ ((5 : ℕ) < 5) by omega)]
  dsimp only
  rw [hmean, hstd, hp75, hp25, polyfitSlope_five_tens, pyOr_zero]
  simp only [List.map_cons, List.map_nil]
  norm_num [pyMax, max_def, abs_of_nonneg, List.foldl_cons, List.foldl_nil]
  rw [hsc6]
  norm_num [mean_scores6c1, std_scores6c1]
  linarith [sqrt24_ge_three]

/-- The sixth step of the spike scenario (five 10s then 1000): the post-append
window is `[10,10,10,10,1000]` with mean `208` and std `396`, every feature
z-score has absolute value at most `2` (the z-score of the raw value is exactly
`2`), the recalibrated threshold is `12/5 + 2·√(376/25) ≈ 10.2`, the IQR
threshold is `0`, and the verdict is an anomaly — solely because the IQR test
fires (`|1000 − 208| = 792 > 0`). -/
theorem detect_step6_c3 :
    ((⟨5, 10, 3 / 2, List.replicate 5 10, [0, 0, 0, 0, 10]⟩ :
        AnomalyDetector).detect 1000).2.max_z_score = 2 ∧
    ((⟨5, 10, 3 / 2, List.replicate 5 10, [0, 0, 0, 0, 10]⟩ :
        AnomalyDetector).detect 1000).1.z_threshold =
      12 / 5 + 2 * Real.sqrt (376 / 25) ∧
    ((⟨5, 10, 3 / 2, List.replicate 5 10, [0, 0, 0, 0, 10]⟩ :
        AnomalyDetector).detect 1000).2.iqr_threshold = 0 ∧
    ((⟨5, 10, 3 / 2, List.replicate 5 10, [0, 0, 0, 0, 10]⟩ :
        AnomalyDetector).detect 1000).2.is_anomaly := by
  have hw6 : dequeAppend 5 (List.replicate 5 10) 1000 =
      [10, 10, 10, 10, (1000 : ℝ)] := rfl
  have hsc6 : dequeAppend 5 [0, 0, 0, 0, (10 : ℝ)] 2 = [0, 0, 0, 10, 2] := rfl
  have hcond : ¬ (([10, 10, 10, 10, (1000 : ℝ)] : List ℝ).length < 5) := by
    norm_num
  simp only [AnomalyDetector.detect, FeatureExtractor.extract, hw6]
  rw [if_neg hcond]
  dsimp only
  rw [mean_spike, std_spike, p75_spike, p25_spike, polyfitSlope_spike]
  norm_num [pyOr]
  norm_num [pyMax, max_def, abs_of_nonneg, List.foldl_cons, List.foldl_nil]
  rw [hsc6]
  norm_num [mean_scores6c3, std_scores6c3]

theorem step6_c3_raw_z :
    (1000 - np.mean (dequeAppend 5 (List.replicate 5 10) 1000)) /
      pyOr (np.std (dequeAppend 5 (List.replicate 5 10) 1000)) = 2 := by
  rw [show dequeAppend 5 (List.replicate 5 10) 1000 =
      [10, 10, 10, 10, (1000 : ℝ)] from rfl, mean_spike, std_spike]
  norm_num [pyOr]

theorem detect_agrees_step (e : AnomalyDetector) (p : AdaptiveAnomalyDetector)
    (h1 : e.window_size = p.window_size) (h2 : e.window = p.window)
    (h3 : e.scores_window = p.scores_window)
    (h4 : e.z_threshold = p.z_threshold) (x : ℝ) :
    (e.detect x).1.window_size = (p.detect_anomaly x).1.window_size ∧
    (e.detect x).1.window = (p.detect_anomaly x).1.window ∧
    (e.detect x).1.scores_window = (p.detect_anomaly x).1.scores_window ∧
    (e.detect x).1.z_threshold = (p.detect_anomaly x).1.z_threshold ∧
    (e.detect x).2.max_z_score = (p.detect_anomaly x).2.max_z_score ∧
    ((e.detect x).2.max_z_score > (e.detect x).1.z_threshold ↔
      (p.detect_anomaly x).2.is_anomaly) := by
  obtain ⟨c, t, f, w, sc⟩ := e
  obtain ⟨c', t', w', sc'⟩ := p
  simp only at h1 h2 h3 h4
  subst h1; subst h2; subst h3; subst h4
  exact ⟨rfl, rfl, rfl, rfl, rfl, Iff.rfl⟩

theorem adaptive_run_cons (s : AdaptiveAnomalyDetector) (x : ℝ) (l : List ℝ) :
    s.run (x :: l) = ((s.detect_anomaly x).1).run l := rfl

theorem run_agrees (l : List ℝ) :
    ∀ (e : AnomalyDetector) (p : AdaptiveAnomalyDetector),
    e.window_size = p.window_size → e.window = p.window →
    e.scores_window = p.scores_window → e.z_threshold = p.z_threshold →
    (e.run l).window_size = (p.run l).window_size ∧
    (e.run l).window = (p.run l).window ∧
    (e.run l).scores_window = (p.run l).scores_window ∧
    (e.run l).z_threshold = (p.run l).z_threshold := by
  induction l with
  | nil => intro e p h1 h2 h3 h4; exact ⟨h1, h2, h3, h4⟩
  | cons x t ih =>
    intro e p h1 h2 h3 h4
    rw [run_cons, adaptive_run_cons]
    obtain ⟨g1, g2, g3, g4, _, _⟩ := detect_agrees_step e p h1 h2 h3 h4 x
    exact ih _ _ g1 g2 g3 g4

/-! ### C1 — the constant-10 scenario -/

/-- C1 counterexample: on the 6th `detect` call of the constant-10 scenario
the returned score is `10`, not `0` as the claim states — the feature
vector has derived entries (std, z-score, IQR, slope) that are all `0`, ten guarded
standard deviations below the window mean `10`, so their z-scores are `-10`,
not `0`. -/
theorem c1_counterexample :
    ((AnomalyDetector.run (AnomalyDetector.init 5 3 (3 / 2))
        [10, 10, 10, 10, 10]).detect 10).2.max_z_score = 10 ∧
    (10 : ℝ) ≠ 0 := by
  rw [trace_state5]
  exact ⟨detect_step6_c1.1, by norm_num⟩

/-- C1 amended: on the 6th call the post-append window holds five identical
values, its standard deviation is `0`, and the z-score of the raw value (with the
guard substituting denominator `1`) is `0`; but the score is `10` (the maximum
over all six features, four of which have z-score `-10`), and the verdict is
nevertheless `is_anomaly = False`. -/
theorem c1_amended :
    np.std (dequeAppend 5 (AnomalyDetector.run (AnomalyDetector.init 5 3 (3 / 2))
      [10, 10, 10, 10, 10]).window 10) = 0 ∧
    (10 - np.mean (dequeAppend 5 (AnomalyDetector.run
        (AnomalyDetector.init 5 3 (3 / 2)) [10, 10, 10, 10, 10]).window 10)) /
      pyOr (np.std (dequeAppend 5 (AnomalyDetector.run
        (AnomalyDetector.init 5 3 (3 / 2)) [10, 10, 10, 10, 10]).window 10)) = 0 ∧
    ((AnomalyDetector.run (AnomalyDetector.init 5 3 (3 / 2))
        [10, 10, 10, 10, 10]).detect 10).2.max_z_score = 10 ∧
    ¬ ((AnomalyDetector.run (AnomalyDetector.init 5 3 (3 / 2))
        [10, 10, 10, 10, 10]).detect 10).2.is_anomaly := by
  rw [trace_state5]
  have hw : dequeAppend 5
      ((⟨5, 10, 3 / 2, List.replicate 5 10, [0, 0, 0, 0, 10]⟩ :
        AnomalyDetector).window) 10 = List.replicate 5 10 := rfl
  rw [hw]
  refine ⟨std_replicate 5 10, ?_, detect_step6_c1.1, detect_step6_c1.2⟩
  rw [mean_replicate (by omega) 10, sub_self, zero_div]

/-! ### C3 — the spike scenario -/

/-- C3 counterexample: on the 6th call of the spike scenario the raw value's
z-score against the post-append window is `792 / 396 = 2`, which does **not**
exceed the claimed COLD threshold of `3`; moreover the pure z-score variant
(`main.py`) returns `is_anomaly = False` on that call, since the threshold has
already been recalibrated to `≈ 10.2`. -/
theorem c3_counterexample :
    ¬ ((1000 - np.mean (dequeAppend 5 (AnomalyDetector.run
          (AnomalyDetector.init 5 3 (3 / 2)) [10, 10, 10, 10, 10]).window 1000)) /
        pyOr (np.std (dequeAppend 5 (AnomalyDetector.run
          (AnomalyDetector.init 5 3 (3 / 2)) [10, 10, 10, 10, 10]).window 1000))
        > 3) ∧
    ¬ ((AdaptiveAnomalyDetector.run (AdaptiveAnomalyDetector.init 5 3)
        [10, 10, 10, 10, 10]).detect_anomaly 1000).2.is_anomaly := by
  constructor
  · rw [trace_state5]
    have hw : (⟨5, 10, 3 / 2, List.replicate 5 10, [0, 0, 0, 0, 10]⟩ :
        AnomalyDetector).window = List.replicate 5 10 := rfl
    rw [hw, step6_c3_raw_z]
    norm_num
  · obtain ⟨g1, g2, g3, g4⟩ := run_agrees [10, 10, 10, 10, 10]
      (AnomalyDetector.init 5 3 (3 / 2)) (AdaptiveAnomalyDetector.init 5 3)
      rfl rfl rfl rfl
    obtain ⟨_, _, _, _, _, d6⟩ := detect_agrees_step _ _ g1 g2 g3 g4 1000
    intro h
    have hz := d6.mpr h
    rw [trace_state5] at hz
    rw [detect_step6_c3.1, detect_step6_c3.2.1] at hz
    nlinarith [Real.sqrt_nonneg ((376 : ℝ) / 25)]

/-- C3 amended: the extended variant does return `is_anomaly = True` on the
6th call, but via the IQR secondary test (`iqr_threshold = 0 < |1000 − 208|`),
not the z-score test: the score is `2`, below every threshold in play, and
the z-score sub-test fails. -/
theorem c3_amended :
    ((AnomalyDetector.run (AnomalyDetector.init 5 3 (3 / 2))
        [10, 10, 10, 10, 10]).detect 1000).2.is_anomaly ∧
    ((AnomalyDetector.run (AnomalyDetector.init 5 3 (3 / 2))
        [10, 10, 10, 10, 10]).detect 1000).2.max_z_score = 2 ∧
    ((AnomalyDetector.run (AnomalyDetector.init 5 3 (3 / 2))
        [10, 10, 10, 10, 10]).detect 1000).2.iqr_threshold = 0 ∧
    ¬ (((AnomalyDetector.run (AnomalyDetector.init 5 3 (3 / 2))
          [10, 10, 10, 10, 10]).detect 1000).2.max_z_score >
        ((AnomalyDetector.run (AnomalyDetector.init 5 3 (3 / 2))
          [10, 10, 10, 10, 10]).detect 1000).1.z_threshold) := by
  rw [trace_state5]
  refine ⟨detect_step6_c3.2.2.2, detect_step6_c3.1, detect_step6_c3.2.2.1, ?_⟩
  rw [detect_step6_c3.1, detect_step6_c3.2.1]
  intro h
  nlinarith [Real.sqrt_nonneg ((376 : ℝ) / 25)]

/-! ### C8 — the two variants agree up to the IQR secondary test -/

/-- C8: for every shared configuration and every input history, the extended
variant (`AnomalyDetector.detect`) and the pure z-score variant
(`AdaptiveAnomalyDetector.detect_anomaly`) produce the same score and the same
threshold on the next step, and the z-score sub-test of the extended variant, namely
`score > z_threshold` coincides with the verdict of the pure variant — the two
variants differ only by the optional IQR secondary test. -/
theorem c8_variants_agree (c : ℕ) (t f : ℝ) (l : List ℝ) (x : ℝ) :
    ((AnomalyDetector.run (AnomalyDetector.init c t f) l).detect
        x).2.max_z_score =
      ((AdaptiveAnomalyDetector.run (AdaptiveAnomalyDetector.init c t)
          l).detect_anomaly x).2.max_z_score ∧
    ((AnomalyDetector.run (AnomalyDetector.init c t f) l).detect
        x).1.z_threshold =
      ((AdaptiveAnomalyDetector.run (AdaptiveAnomalyDetector.init c t)
          l).detect_anomaly x).1.z_threshold ∧
    (((AnomalyDetector.run (AnomalyDetector.init c t f) l).detect
          x).2.max_z_score >
        ((AnomalyDetector.run (AnomalyDetector.init c t f) l).detect
          x).1.z_threshold ↔
      ((AdaptiveAnomalyDetector.run (AdaptiveAnomalyDetector.init c t)
          l).detect_anomaly x).2.is_anomaly) := by
  obtain ⟨g1, g2, g3, g4⟩ :=
    run_agrees l (AnomalyDetector.init c t f)
      (AdaptiveAnomalyDetector.init c t) rfl rfl rfl rfl
  obtain ⟨_, _, _, d4, d5, d6⟩ :=
    detect_agrees_step _ _ g1 g2 g3 g4 x
  exact ⟨d5, d4, d6⟩

end
